import Mathlib

/-!
Shallow embedding of the Acorn Archimedes emulator core
(repository acornarc-AI) used to check the specification claims.

The definitions below are translated from the C++ sources:
  * address-space constants and the memory_t struct from src/src/memory.h
    (the revision embedded in src/unnamed/part_002) and src/src/io.h;
  * memory_read_word / memory_write_word / memory_read_byte /
    memory_write_byte from src/src/memory.cpp;
  * io_read_word / io_write_word / io_read_byte / io_write_byte /
    io_update_timers from src/unnamed/part_003 (the full IOC/VIDC
    implementation matching src/src/io.h);
  * cpu_reset from src/unnamed/part_008, cpu_step from src/src/cpu.cpp,
    and the interrupt/fetch preamble of cpu_step from src/unnamed/part_008.

Machine words are Nat with explicit reduction modulo 2^32 where the C code
relies on uint32_t wrap-around; RAM and ROM are byte maps Nat → Nat with
little-endian word composition, mirroring the uint32_t* casts on the byte
buffers in the source.
-/

namespace AcornArc

/-! Address-space constants from src/src/memory.h. -/

def RAM_BASE : Nat := 0x00000000
def RAM_SIZE : Nat := 0x01000000
def ROM_SIZE : Nat := 0x00200000
def ROM_DEFAULT_BASE : Nat := 0x03800000
def IO_BASE : Nat := 0x02000000
def IO_SIZE : Nat := 0x02000000
def ADDR_MASK : Nat := 0x03FFFFFF

/-! MMIO constants from src/src/io.h. -/

def VIDC_BASE : Nat := 0x03400000
def VIDC_SIZE : Nat := 0x00200000
def IOC_BASE : Nat := 0x03200000
def IOC_SIZE : Nat := 0x00200000

/-! PSR bits and modes from src/src/cpu.h. -/

def PSR_N : Nat := 0x80000000
def PSR_Z : Nat := 0x40000000
def PSR_C : Nat := 0x20000000
def PSR_V : Nat := 0x10000000
def PSR_I : Nat := 0x00000080
def PSR_F : Nat := 0x00000040
def PSR_MODE_MASK : Nat := 0x1F
def MODE_SVC : Nat := 0x13
def MODE_IRQ : Nat := 0x12

/-- Point update of a byte/word map. -/
def upd (f : Nat → Nat) (i v : Nat) : Nat → Nat := fun j => if j = i then v else f j

/-- 32-bit wrap-around addition (uint32_t `+`). -/
def add32 (a b : Nat) : Nat := (a + b) % 0x100000000

/-- 32-bit wrap-around subtraction (uint32_t `-`, operands below 2^32). -/
def sub32 (a b : Nat) : Nat := (a + 0x100000000 - b) % 0x100000000

/-- Bitwise complement on 32-bit values (uint32_t `~`). -/
def not32 (a : Nat) : Nat := 0xFFFFFFFF ^^^ a

/-- Arithmetic shift right of a 32-bit value by s (0 ≤ s ≤ 31 at call sites):
    the sign bit is replicated into the vacated positions. -/
def asr32 (a s : Nat) : Nat :=
  if a < 0x80000000 then a >>> s
  else a >>> s + (0x100000000 - 0x100000000 >>> s)

/-- Rotate right of a 32-bit value by s (0 < s < 32 at call sites),
    translating the C expression (a >> s) | (a << (32 - s)) on uint32_t. -/
def ror32 (a s : Nat) : Nat := a >>> s ||| (a <<< (32 - s)) % 0x100000000

/-- Little-endian 32-bit word read from a byte map, translating the
    uint32_t* load on the byte buffer in src/src/memory.cpp. -/
def leWord (buf : Nat → Nat) (off : Nat) : Nat :=
  buf off + 0x100 * buf (off + 1) + 0x10000 * buf (off + 2) + 0x1000000 * buf (off + 3)

/-- Little-endian 32-bit word store into a byte map, translating the
    uint32_t* store on the byte buffer in src/src/memory.cpp. -/
def storeWord (buf : Nat → Nat) (off v : Nat) : Nat → Nat :=
  fun j =>
    if j = off then v % 0x100
    else if j = off + 1 then v / 0x100 % 0x100
    else if j = off + 2 then v / 0x10000 % 0x100
    else if j = off + 3 then v / 0x1000000 % 0x100
    else buf j

/-- VIDC register bank (vidc_t in src/src/io.h). -/
structure Vidc where
  control : Nat
  palette : Nat → Nat
  border_color : Nat
  cursor_palette : Nat → Nat
  h_cycle : Nat
  h_sync_width : Nat
  h_border_start : Nat
  h_display_start : Nat
  h_display_end : Nat
  h_border_end : Nat
  h_cursor_start : Nat
  v_cycle : Nat
  v_sync_width : Nat
  v_border_start : Nat
  v_display_start : Nat
  v_display_end : Nat
  v_border_end : Nat
  v_cursor_end : Nat
  sound_freq : Nat
  sound_control : Nat
  video_base : Nat
  ext_latch_c : Nat

/-- IOC register bank (ioc_t in src/src/io.h). -/
structure Ioc where
  control : Nat
  timer0_low : Nat
  timer0_high : Nat
  timer1_low : Nat
  timer1_high : Nat
  timer0_latch : Nat
  timer1_latch : Nat
  irq_status_a : Nat
  irq_request_a : Nat
  irq_mask_a : Nat
  irq_status_b : Nat
  irq_request_b : Nat
  irq_mask_b : Nat
  fiq_status : Nat
  fiq_request : Nat
  fiq_mask : Nat
  podule_irq_mask : Nat
  podule_irq_request : Nat

/-- The io_t struct of src/src/io.h: MEMC latch, VIDC and IOC banks,
    frame buffer geometry and the derived interrupt-pending flags. -/
structure IoUnit where
  memc_control : Nat
  vidc : Vidc
  ioc : Ioc
  frame_width : Nat
  frame_height : Nat
  irq_pending : Bool
  fiq_pending : Bool
  cycles : Nat

/-- io_read_word from src/unnamed/part_003 (pure: no machine state is
    changed by an I/O read). The C switch on the word offset is rendered
    as an if chain; offsets 1..255 are the palette, as in the source. -/
def io_read_word (u : IoUnit) (address : Nat) : Nat :=
  if VIDC_BASE ≤ address ∧ address < VIDC_BASE + VIDC_SIZE then
    let offset := (address - VIDC_BASE) >>> 2
    if offset = 0 then
      u.vidc.control ||| (if u.ioc.irq_request_a &&& 0x8 ≠ 0 then 0x8 else 0)
    else if 1 ≤ offset ∧ offset ≤ 255 then u.vidc.palette (offset - 1)
    else if offset = 256 then u.vidc.border_color
    else if 257 ≤ offset ∧ offset ≤ 259 then u.vidc.cursor_palette (offset - 257)
    else if offset = 260 then u.vidc.h_cycle
    else if offset = 261 then u.vidc.h_sync_width
    else if offset = 262 then u.vidc.h_border_start
    else if offset = 263 then u.vidc.h_display_start
    else if offset = 264 then u.vidc.h_display_end
    else if offset = 265 then u.vidc.h_border_end
    else if offset = 266 then u.vidc.h_cursor_start
    else if offset = 267 then u.vidc.v_cycle
    else if offset = 268 then u.vidc.v_sync_width
    else if offset = 269 then u.vidc.v_border_start
    else if offset = 270 then u.vidc.v_display_start
    else if offset = 271 then u.vidc.v_display_end
    else if offset = 272 then u.vidc.v_border_end
    else if offset = 273 then u.vidc.v_cursor_end
    else if offset = 274 then u.vidc.sound_freq
    else if offset = 275 then u.vidc.sound_control
    else if offset = 276 then u.vidc.video_base
    else if offset = 277 then u.vidc.ext_latch_c
    else 0
  else if IOC_BASE ≤ address ∧ address < IOC_BASE + IOC_SIZE then
    let offset := (address - IOC_BASE) >>> 2
    if offset = 0 then u.ioc.control
    else if offset = 1 then u.ioc.timer0_low
    else if offset = 2 then u.ioc.timer0_high
    else if offset = 3 then u.ioc.timer1_low
    else if offset = 4 then u.ioc.timer1_high
    else if offset = 5 then u.ioc.timer0_latch
    else if offset = 6 then u.ioc.timer1_latch
    else if offset = 7 then u.ioc.irq_status_a
    else if offset = 8 then u.ioc.irq_request_a
    else if offset = 9 then u.ioc.irq_mask_a
    else if offset = 10 then u.ioc.irq_status_b
    else if offset = 11 then u.ioc.irq_request_b
    else if offset = 12 then u.ioc.irq_mask_b
    else if offset = 13 then u.ioc.fiq_status
    else if offset = 14 then u.ioc.fiq_request
    else if offset = 15 then u.ioc.fiq_mask
    else if offset = 16 then u.ioc.podule_irq_mask
    else if offset = 17 then u.ioc.podule_irq_request
    else 0
  else 0

/-- VIDC bank update performed by a word write at the given word offset
    in io_write_word of src/unnamed/part_003. Palette, border and cursor
    colours are masked to 13 bits, sound_freq and ext_latch_c to 8,
    video_base to 26; unknown offsets are ignored. The frame-dimension
    side effects of offsets 263/264/270/271 live on the io_t struct and
    are modelled by frame_width_after / frame_height_after below. -/
def vidc_reg_write (b : Vidc) (offset value : Nat) : Vidc :=
  if offset = 0 then { b with control := value }
  else if 1 ≤ offset ∧ offset ≤ 255 then
    { b with palette := upd b.palette (offset - 1) (value &&& 0x1FFF) }
  else if offset = 256 then { b with border_color := value &&& 0x1FFF }
  else if 257 ≤ offset ∧ offset ≤ 259 then
    { b with cursor_palette := upd b.cursor_palette (offset - 257) (value &&& 0x1FFF) }
  else if offset = 260 then { b with h_cycle := value }
  else if offset = 261 then { b with h_sync_width := value }
  else if offset = 262 then { b with h_border_start := value }
  else if offset = 263 then { b with h_display_start := value }
  else if offset = 264 then { b with h_display_end := value }
  else if offset = 265 then { b with h_border_end := value }
  else if offset = 266 then { b with h_cursor_start := value }
  else if offset = 267 then { b with v_cycle := value }
  else if offset = 268 then { b with v_sync_width := value }
  else if offset = 269 then { b with v_border_start := value }
  else if offset = 270 then { b with v_display_start := value }
  else if offset = 271 then { b with v_display_end := value }
  else if offset = 272 then { b with v_border_end := value }
  else if offset = 273 then { b with v_cursor_end := value }
  else if offset = 274 then { b with sound_freq := value &&& 0xFF }
  else if offset = 275 then { b with sound_control := value }
  else if offset = 276 then { b with video_base := value &&& ADDR_MASK }
  else if offset = 277 then { b with ext_latch_c := value &&& 0xFF }
  else b

/-- Derived frame width after a VIDC word write: offsets 263 and 264
    recompute h_display_end - h_display_start with uint32_t subtraction
    (using the just-written value for the written register), every other
    offset leaves it alone. -/
def frame_width_after (u : IoUnit) (offset value : Nat) : Nat :=
  if offset = 263 then sub32 u.vidc.h_display_end value
  else if offset = 264 then sub32 value u.vidc.h_display_start
  else u.frame_width

/-- Derived frame height after a VIDC word write (offsets 270 and 271). -/
def frame_height_after (u : IoUnit) (offset value : Nat) : Nat :=
  if offset = 270 then sub32 u.vidc.v_display_end value
  else if offset = 271 then sub32 value u.vidc.v_display_start
  else u.frame_height

/-- IOC bank update performed by a word write at the given word offset
    in io_write_word of src/unnamed/part_003. Timer registers are masked
    to 16 bits and a latch write also resets the matching current-low;
    the status, request and mask registers store the value directly
    (request writes are plain assignments in the source); unknown
    offsets are ignored. -/
def ioc_reg_write (b : Ioc) (offset value : Nat) : Ioc :=
  if offset = 0 then { b with control := value }
  else if offset = 1 then { b with timer0_low := value &&& 0xFFFF }
  else if offset = 2 then { b with timer0_high := value &&& 0xFFFF }
  else if offset = 3 then { b with timer1_low := value &&& 0xFFFF }
  else if offset = 4 then { b with timer1_high := value &&& 0xFFFF }
  else if offset = 5 then
    { b with timer0_latch := value &&& 0xFFFF, timer0_low := value &&& 0xFFFF }
  else if offset = 6 then
    { b with timer1_latch := value &&& 0xFFFF, timer1_low := value &&& 0xFFFF }
  else if offset = 7 then { b with irq_status_a := value }
  else if offset = 8 then { b with irq_request_a := value }
  else if offset = 9 then { b with irq_mask_a := value }
  else if offset = 10 then { b with irq_status_b := value }
  else if offset = 11 then { b with irq_request_b := value }
  else if offset = 12 then { b with irq_mask_b := value }
  else if offset = 13 then { b with fiq_status := value }
  else if offset = 14 then { b with fiq_request := value }
  else if offset = 15 then { b with fiq_mask := value }
  else if offset = 16 then { b with podule_irq_mask := value }
  else if offset = 17 then { b with podule_irq_request := value }
  else b

/-- io_write_word from src/unnamed/part_003: a VIDC-window write updates
    the VIDC bank at the word offset and recomputes the derived frame
    dimensions; an IOC-window write updates the IOC bank; the address
    0x02FF5500 is the source's temporary mapping onto the VIDC control
    register; every other address is ignored. The pending-interrupt
    flags are never touched by a write. -/
def io_write_word (u : IoUnit) (address value : Nat) : IoUnit :=
  if VIDC_BASE ≤ address ∧ address < VIDC_BASE + VIDC_SIZE then
    let offset := (address - VIDC_BASE) >>> 2
    { u with vidc := vidc_reg_write u.vidc offset value,
             frame_width := frame_width_after u offset value,
             frame_height := frame_height_after u offset value }
  else if IOC_BASE ≤ address ∧ address < IOC_BASE + IOC_SIZE then
    { u with ioc := ioc_reg_write u.ioc ((address - IOC_BASE) >>> 2) value }
  else if address = 0x02FF5500 then { u with vidc.control := value }
  else u

/-- io_read_byte from src/unnamed/part_003: extract the byte lane from a
    word read of the aligned address. -/
def io_read_byte (u : IoUnit) (address : Nat) : Nat :=
  (io_read_word u (address &&& 0xFFFFFFFC)) >>> ((address &&& 3) * 8) &&& 0xFF

/-- io_write_byte from src/unnamed/part_003: read-modify-write of the
    containing word. -/
def io_write_byte (u : IoUnit) (address value : Nat) : IoUnit :=
  let word_addr := address &&& 0xFFFFFFFC
  let shift := (address &&& 3) * 8
  let word := io_read_word u word_addr
  io_write_word u word_addr ((word &&& not32 (0xFF <<< shift)) ||| (value <<< shift))

/-- The timer part of io_update_timers from src/unnamed/part_003,
    acting on the IOC bank: each timer low adds the 160000-cycle tick
    and, on reaching its latch, wraps, increments the high word and
    asserts its request bit (Timer0 bit 5, Timer1 bit 6); VFLY (bit 3)
    is asserted when the new cycle counter is a multiple of the tick. -/
def ioc_tick (b : Ioc) (cyclesNew : Nat) : Ioc :=
  let t0sum := add32 b.timer0_low 160000
  let t0low := if b.timer0_latch ≤ t0sum then sub32 t0sum b.timer0_latch else t0sum
  let t0high := if b.timer0_latch ≤ t0sum then add32 b.timer0_high 1 else b.timer0_high
  let reqA0 := if b.timer0_latch ≤ t0sum then b.irq_request_a ||| 0x20 else b.irq_request_a
  let t1sum := add32 b.timer1_low 160000
  let t1low := if b.timer1_latch ≤ t1sum then sub32 t1sum b.timer1_latch else t1sum
  let t1high := if b.timer1_latch ≤ t1sum then add32 b.timer1_high 1 else b.timer1_high
  let reqA1 := if b.timer1_latch ≤ t1sum then reqA0 ||| 0x40 else reqA0
  let reqA2 := if cyclesNew % 160000 = 0 then reqA1 ||| 0x8 else reqA1
  { b with
    timer0_low := t0low, timer0_high := t0high,
    timer1_low := t1low, timer1_high := t1high,
    irq_request_a := reqA2 }

/-- The derived IRQ-pending flag recomputed at the end of
    io_update_timers: (irq_request_a & irq_mask_a) or
    (irq_request_b & irq_mask_b) is nonzero. -/
def irq_pending_of (b : Ioc) : Bool :=
  decide (b.irq_request_a &&& b.irq_mask_a ≠ 0) || decide (b.irq_request_b &&& b.irq_mask_b ≠ 0)

/-- The derived FIQ-pending flag recomputed at the end of
    io_update_timers: (fiq_request & fiq_mask) is nonzero. -/
def fiq_pending_of (b : Ioc) : Bool :=
  decide (b.fiq_request &&& b.fiq_mask ≠ 0)

/-- io_update_timers from src/unnamed/part_003: advance the 64-bit cycle
    counter by the per-frame tick of 8000000 / 50 = 160000 cycles, run
    the timer tick on the IOC bank, and recompute the derived pending
    flags from the updated bank. -/
def io_update_timers (u : IoUnit) : IoUnit :=
  let cyclesNew := (u.cycles + 160000) % 0x10000000000000000
  let iocNew := ioc_tick u.ioc cyclesNew
  { u with
    ioc := iocNew,
    cycles := cyclesNew,
    irq_pending := irq_pending_of iocNew,
    fiq_pending := fiq_pending_of iocNew }

/-- The memory_t struct from src/src/memory.h (revision in
    src/unnamed/part_002): RAM and ROM byte buffers, the loaded ROM size
    and base, the floppy offset, the attached io_t and the boot-mode
    flag (an int: 1 at boot, 0 after initialization). -/
structure Memory where
  ram : Nat → Nat
  rom : Nat → Nat
  rom_size : Nat
  rom_base : Nat
  floppy_offset : Nat
  iou : IoUnit
  is_boot_mode : Nat

/-- memory_read_word from src/src/memory.cpp: mask to 26 bits, then in
    order try the ROM alias windows (low 2 MiB and 0x02000000 window,
    wrapped modulo the loaded ROM size, sentinel when the wrapped offset
    has no room for a full word), RAM, primary ROM, the I/O window, and
    otherwise return the 0xFFFFFFFF sentinel. -/
def memory_read_word (mem : Memory) (address : Nat) : Nat :=
  let address := address &&& ADDR_MASK
  if (0x02000000 ≤ address ∧ address < 0x02200000) ∨ address < 0x00200000 then
    let rom_offset := (address &&& 0x001FFFFF) % mem.rom_size
    if rom_offset ≤ mem.rom_size - 4 then leWord mem.rom rom_offset
    else 0xFFFFFFFF
  else if RAM_BASE ≤ address ∧ address < RAM_BASE + RAM_SIZE - 3 then
    leWord mem.ram (address - RAM_BASE)
  else if mem.rom_base ≤ address ∧ address < mem.rom_base + mem.rom_size - 3 then
    leWord mem.rom (address - mem.rom_base)
  else if IO_BASE ≤ address ∧ address < IO_BASE + IO_SIZE - 3 then
    io_read_word mem.iou address
  else 0xFFFFFFFF

/-- memory_write_word from src/src/memory.cpp. Unlike the other three
    bus operations, the source does not mask the address. Writes into
    the primary ROM window, or into the low 2 MiB while in boot mode,
    are ignored; RAM words are stored little-endian; the I/O window is
    delegated; anything else is ignored. -/
def memory_write_word (mem : Memory) (address value : Nat) : Memory :=
  if (mem.rom_base ≤ address ∧ address < mem.rom_base + mem.rom_size) ∨
     (mem.is_boot_mode ≠ 0 ∧ address < 0x00200000) then
    mem
  else if RAM_BASE ≤ address ∧ address < RAM_BASE + RAM_SIZE - 3 then
    { mem with ram := storeWord mem.ram (address - RAM_BASE) value }
  else if IO_BASE ≤ address ∧ address < IO_BASE + IO_SIZE then
    { mem with iou := io_write_word mem.iou address value }
  else mem

/-- memory_read_byte from src/src/memory.cpp. -/
def memory_read_byte (mem : Memory) (address : Nat) : Nat :=
  let address := address &&& ADDR_MASK
  if (0x02000000 ≤ address ∧ address < 0x02200000) ∨ address < 0x00200000 then
    let rom_offset := (address &&& 0x001FFFFF) % mem.rom_size
    if rom_offset < mem.rom_size then mem.rom rom_offset
    else 0
  else if RAM_BASE ≤ address ∧ address < RAM_BASE + RAM_SIZE then
    mem.ram (address - RAM_BASE)
  else if mem.rom_base ≤ address ∧ address < mem.rom_base + mem.rom_size then
    mem.rom (address - mem.rom_base)
  else if IO_BASE ≤ address ∧ address < IO_BASE + IO_SIZE then
    io_read_byte mem.iou address
  else 0

/-- memory_write_byte from src/src/memory.cpp: the address is masked;
    byte writes into either ROM alias window or the primary ROM window
    are ignored. -/
def memory_write_byte (mem : Memory) (address value : Nat) : Memory :=
  let address := address &&& ADDR_MASK
  if (0x02000000 ≤ address ∧ address < 0x02200000) ∨ address < 0x00200000 then
    mem
  else if RAM_BASE ≤ address ∧ address < RAM_BASE + RAM_SIZE then
    { mem with ram := upd mem.ram (address - RAM_BASE) value }
  else if mem.rom_base ≤ address ∧ address < mem.rom_base + mem.rom_size then
    mem
  else if IO_BASE ≤ address ∧ address < IO_BASE + IO_SIZE then
    { mem with iou := io_write_byte mem.iou address value }
  else mem

/-- The arm3_cpu_t struct from src/src/cpu.h: attached memory, sixteen
    general registers (R15 is the PC), CPSR and the saved PSRs. -/
structure Cpu where
  mem : Memory
  registers : Nat → Nat
  cpsr : Nat
  spsr : Nat
  spsr_irq : Nat
  spsr_fiq : Nat

/-- cpu_reset from src/unnamed/part_008: zero R0..R15, set R15 to the
    reset vector 0, set R14 to 0x00000004 (the next instruction after
    reset, as the source comments), CPSR to I|F|SVC, and clear the
    saved PSRs. The memory subsystem is not touched. -/
def cpu_reset (cpu : Cpu) : Cpu :=
  { cpu with
    registers := fun i => if i = 14 then 0x00000004 else 0,
    cpsr := PSR_I ||| PSR_F ||| MODE_SVC,
    spsr := 0, spsr_irq := 0, spsr_fiq := 0 }

/-- update_flags from src/src/cpu.cpp: clear N, Z, C, V, then set N from
    bit 31 of the result, Z from result equal zero, C and V from the
    (C-int truthiness of the) carry and overflow arguments. -/
def update_flags (cpsr result carry overflow : Nat) : Nat :=
  let c0 := cpsr &&& 0x0FFFFFFF
  let c1 := if result &&& 0x80000000 ≠ 0 then c0 ||| PSR_N else c0
  let c2 := if result = 0 then c1 ||| PSR_Z else c1
  let c3 := if carry ≠ 0 then c2 ||| PSR_C else c2
  if overflow ≠ 0 then c3 ||| PSR_V else c3

/-- condition_met from src/src/cpu.cpp. The source takes the cpu and
    reads cpu->cpsr; the embedding passes the CPSR value directly. -/
def condition_met (cpsr cond : Nat) : Bool :=
  if cond = 0x0 then cpsr &&& PSR_Z != 0
  else if cond = 0x1 then cpsr &&& PSR_Z == 0
  else if cond = 0x2 then cpsr &&& PSR_C != 0
  else if cond = 0x3 then cpsr &&& PSR_C == 0
  else if cond = 0x4 then cpsr &&& PSR_N != 0
  else if cond = 0x5 then cpsr &&& PSR_N == 0
  else if cond = 0x6 then cpsr &&& PSR_V != 0
  else if cond = 0x7 then cpsr &&& PSR_V == 0
  else if cond = 0x8 then cpsr &&& PSR_C != 0 && cpsr &&& PSR_Z == 0
  else if cond = 0x9 then cpsr &&& PSR_C == 0 || cpsr &&& PSR_Z != 0
  else if cond = 0xA then (cpsr &&& PSR_N) >>> 31 == (cpsr &&& PSR_V) >>> 28
  else if cond = 0xB then (cpsr &&& PSR_N) >>> 31 != (cpsr &&& PSR_V) >>> 28
  else if cond = 0xC then cpsr &&& PSR_Z == 0 && (cpsr &&& PSR_N) >>> 31 == (cpsr &&& PSR_V) >>> 28
  else if cond = 0xD then cpsr &&& PSR_Z != 0 || (cpsr &&& PSR_N) >>> 31 != (cpsr &&& PSR_V) >>> 28
  else if cond = 0xE then true
  else false

/-- get_operand2 from src/src/cpu.cpp, returning the pair of operand and
    carry-out. The C passes carry_out by pointer; carryInit is the value
    it holds on entry, returned unchanged on the paths where the source
    does not write it (shift amounts of zero). Shift results are reduced
    modulo 2^32 exactly where the uint32_t arithmetic truncates. -/
def get_operand2 (cpu : Cpu) (instr carryInit : Nat) : Nat × Nat :=
  if instr &&& 0x02000000 ≠ 0 then
    let imm := instr &&& 0xFF
    let rot := (instr >>> 8) &&& 0xF
    let operand2 := (imm >>> (2 * rot) ||| imm <<< (32 - 2 * rot)) % 0x100000000
    (operand2, if rot = 0 then cpu.cpsr &&& PSR_C else (operand2 >>> 31) &&& 1)
  else
    let rm := instr &&& 0xF
    let operand2 := cpu.registers rm
    let shift := (instr >>> 4) &&& 0xFF
    if shift &&& 0x1 ≠ 0 then
      let rs := (instr >>> 8) &&& 0xF
      let shift_amount := cpu.registers rs &&& 0xFF
      let ty := (shift >>> 1) &&& 0x3
      if ty = 0 then
        if shift_amount > 32 then (0, 0)
        else if shift_amount = 32 then (0, operand2 &&& 1)
        else if shift_amount > 0 then
          ((operand2 <<< shift_amount) % 0x100000000, (operand2 >>> (32 - shift_amount)) &&& 1)
        else (operand2, carryInit)
      else if ty = 1 then
        if shift_amount > 32 then (0, 0)
        else if shift_amount = 32 then (0, (operand2 >>> 31) &&& 1)
        else if shift_amount > 0 then
          (operand2 >>> shift_amount, (operand2 >>> (shift_amount - 1)) &&& 1)
        else (operand2, carryInit)
      else if ty = 2 then
        if shift_amount ≥ 32 then (asr32 operand2 31, (operand2 >>> 31) &&& 1)
        else (asr32 operand2 shift_amount, (operand2 >>> (shift_amount - 1)) &&& 1)
      else
        if shift_amount = 0 then (operand2, carryInit)
        else
          let shift_amount := shift_amount &&& 31
          if shift_amount > 0 then
            (ror32 operand2 shift_amount, (operand2 >>> (shift_amount - 1)) &&& 1)
          else (operand2, carryInit)
    else
      let shift_amount := (shift >>> 3) &&& 0x1F
      let ty := (shift >>> 1) &&& 0x3
      if ty = 0 then
        if shift_amount > 0 then
          ((operand2 <<< shift_amount) % 0x100000000, (operand2 >>> (32 - shift_amount)) &&& 1)
        else (operand2, carryInit)
      else if ty = 1 then
        if shift_amount = 0 then (0, 0)
        else (operand2 >>> shift_amount, (operand2 >>> (shift_amount - 1)) &&& 1)
      else if ty = 2 then
        if shift_amount = 0 then (asr32 operand2 31, (operand2 >>> 31) &&& 1)
        else (asr32 operand2 shift_amount, (operand2 >>> (shift_amount - 1)) &&& 1)
      else
        if shift_amount = 0 then (operand2, carryInit)
        else (ror32 operand2 shift_amount, (operand2 >>> (shift_amount - 1)) &&& 1)

/-- cpu_step from src/src/cpu.cpp. Fetch at the masked PC; a sentinel
    word is an invalid fetch and the function returns with the state
    untouched (the source logs and returns). Otherwise PC advances by 4,
    the condition field is evaluated, and the instruction classes are
    dispatched in the source's order: data processing first (which also
    captures every multiply encoding, since a multiply word satisfies
    (instr & 0x0C000000) == 0), then branch, single transfer, block
    transfer, the (unreachable) multiply branch, software interrupt,
    and otherwise nothing. -/
def cpu_step (cpu0 : Cpu) : Cpu :=
  let fetch_pc := cpu0.registers 15 &&& ADDR_MASK
  let instr := memory_read_word cpu0.mem fetch_pc
  if instr = 0xFFFFFFFF then cpu0
  else
    let cpu := { cpu0 with registers := upd cpu0.registers 15 (add32 (cpu0.registers 15) 4) }
    let cond := (instr >>> 28) &&& 0xF
    if condition_met cpu.cpsr cond = false then cpu
    else if instr &&& 0x0C000000 = 0x00000000 then
      let opcode := (instr >>> 21) &&& 0xF
      let rn := (instr >>> 16) &&& 0xF
      let rd := (instr >>> 12) &&& 0xF
      let s_flag := (instr >>> 20) &&& 1
      let carry_in := if cpu.cpsr &&& PSR_C ≠ 0 then 1 else 0
      let op1 := cpu.registers rn
      let shifted := get_operand2 cpu instr carry_in
      let op2 := shifted.1
      let rcv : Nat × Nat × Nat :=
        if opcode = 0x0 then (op1 &&& op2, shifted.2, 0)
        else if opcode = 0x1 then (op1 ^^^ op2, shifted.2, 0)
        else if opcode = 0x2 then
          let r := sub32 op1 op2
          (r, if op1 ≥ op2 then 1 else 0, ((op1 ^^^ r) &&& (not32 op2 ^^^ r)) >>> 31)
        else if opcode = 0x3 then
          let r := sub32 op2 op1
          (r, if op2 ≥ op1 then 1 else 0, ((op2 ^^^ r) &&& (not32 op1 ^^^ r)) >>> 31)
        else if opcode = 0x4 then
          let r := add32 op1 op2
          (r, if r < op1 then 1 else 0, ((op1 ^^^ r) &&& (op2 ^^^ r)) >>> 31)
        else if opcode = 0x5 then
          let r := add32 (add32 op1 op2) carry_in
          (r, if r < op1 ∨ (r = op1 ∧ op2 ≠ 0) then 1 else 0,
           ((op1 ^^^ r) &&& (op2 ^^^ r)) >>> 31)
        else if opcode = 0x6 then
          let r := sub32 (add32 (sub32 op1 op2) carry_in) 1
          (r, if op1 ≥ op2 ∨ (op1 = op2 ∧ carry_in ≠ 0) then 1 else 0,
           ((op1 ^^^ r) &&& (not32 op2 ^^^ r)) >>> 31)
        else if opcode = 0x7 then
          let r := sub32 (add32 (sub32 op2 op1) carry_in) 1
          (r, if op2 ≥ op1 ∨ (op2 = op1 ∧ carry_in ≠ 0) then 1 else 0,
           ((op2 ^^^ r) &&& (not32 op1 ^^^ r)) >>> 31)
        else if opcode = 0x8 then (op1 &&& op2, shifted.2, 0)
        else if opcode = 0x9 then (op1 ^^^ op2, shifted.2, 0)
        else if opcode = 0xA then
          let r := sub32 op1 op2
          (r, if op1 ≥ op2 then 1 else 0, ((op1 ^^^ r) &&& (not32 op2 ^^^ r)) >>> 31)
        else if opcode = 0xB then
          let r := add32 op1 op2
          (r, if r < op1 then 1 else 0, ((op1 ^^^ r) &&& (op2 ^^^ r)) >>> 31)
        else if opcode = 0xC then (op1 ||| op2, shifted.2, 0)
        else if opcode = 0xD then (op2, shifted.2, 0)
        else if opcode = 0xE then (op1 &&& not32 op2, shifted.2, 0)
        else (not32 op2, shifted.2, 0)
      let result := rcv.1
      let cpu :=
        if s_flag ≠ 0 ∨ opcode ≥ 0x8 then
          { cpu with cpsr := update_flags cpu.cpsr result rcv.2.1 rcv.2.2 }
        else cpu
      if opcode < 0x8 ∨ opcode ≥ 0xC then
        if rd ≠ 15 then { cpu with registers := upd cpu.registers rd result }
        else { cpu with registers := upd cpu.registers 15 (result &&& ADDR_MASK) }
      else cpu
    else if instr &&& 0x0F000000 = 0x0A000000 then
      let offset24 := instr &&& 0x00FFFFFF
      let offsetSx := if offset24 &&& 0x00800000 ≠ 0 then offset24 ||| 0xFF000000 else offset24
      let offset := (offsetSx <<< 2) % 0x100000000
      let base_pc := fetch_pc + 8
      let new_pc := add32 base_pc offset
      let cpu :=
        if instr &&& 0x01000000 ≠ 0 then
          { cpu with registers := upd cpu.registers 14 (cpu.registers 15) }
        else cpu
      { cpu with registers := upd cpu.registers 15 (new_pc &&& ADDR_MASK) }
    else if instr &&& 0x0C000000 = 0x04000000 then
      let rn := (instr >>> 16) &&& 0xF
      let rd := (instr >>> 12) &&& 0xF
      let load := (instr >>> 20) &&& 1
      let byte := (instr >>> 22) &&& 1
      let up := (instr >>> 23) &&& 1
      let pre := (instr >>> 24) &&& 1
      let writeback := (instr >>> 21) &&& 1
      let base := cpu.registers rn
      let offset := if instr &&& 0x02000000 ≠ 0 then (get_operand2 cpu instr 0).1
                    else instr &&& 0xFFF
      let addr := if up ≠ 0 then add32 base offset else sub32 base offset
      let cpu :=
        if pre ≠ 0 then
          let cpu :=
            if load ≠ 0 then
              if byte ≠ 0 then
                { cpu with registers := upd cpu.registers rd (memory_read_byte cpu.mem addr) }
              else
                { cpu with registers := upd cpu.registers rd (memory_read_word cpu.mem addr) }
            else
              if byte ≠ 0 then
                { cpu with mem := memory_write_byte cpu.mem addr (cpu.registers rd % 0x100) }
              else
                { cpu with mem := memory_write_word cpu.mem addr (cpu.registers rd) }
          if writeback ≠ 0 then { cpu with registers := upd cpu.registers rn addr } else cpu
        else
          let cpu :=
            if load ≠ 0 then
              if byte ≠ 0 then
                { cpu with registers := upd cpu.registers rd (memory_read_byte cpu.mem base) }
              else
                { cpu with registers := upd cpu.registers rd (memory_read_word cpu.mem base) }
            else
              if byte ≠ 0 then
                { cpu with mem := memory_write_byte cpu.mem base (cpu.registers rd % 0x100) }
              else
                { cpu with mem := memory_write_word cpu.mem addr (cpu.registers rd) }
          { cpu with registers := upd cpu.registers rn addr }
      if rd = 15 then
        { cpu with registers := upd cpu.registers 15 (cpu.registers 15 &&& ADDR_MASK) }
      else cpu
    else if instr &&& 0x0E000000 = 0x08000000 then
      let rn := (instr >>> 16) &&& 0xF
      let load := (instr >>> 20) &&& 1
      let up := (instr >>> 23) &&& 1
      let pre := (instr >>> 24) &&& 1
      let writeback := (instr >>> 21) &&& 1
      let reg_list := instr &&& 0xFFFF
      let base := cpu.registers rn
      let count := (List.range 16).foldl
        (fun c i => if reg_list &&& (1 <<< i) ≠ 0 then c + 1 else c) 0
      let addr0 := if up ≠ 0 then base else sub32 base (count * 4)
      let addr1 := if up = 0 ∧ pre = 0 then add32 addr0 4 else addr0
      let addr2 := if up ≠ 0 ∧ pre ≠ 0 then add32 addr1 4 else addr1
      let stepped := (List.range 16).foldl
        (fun (p : Cpu × Nat) i =>
          if reg_list &&& (1 <<< i) ≠ 0 then
            if load ≠ 0 then
              ({ p.1 with registers := upd p.1.registers i (memory_read_word p.1.mem p.2) },
               add32 p.2 4)
            else
              ({ p.1 with mem := memory_write_word p.1.mem p.2 (p.1.registers i) },
               add32 p.2 4)
          else p)
        (cpu, addr2)
      let cpu := stepped.1
      let wbVal := if up ≠ 0 then add32 base (count * 4) else sub32 base (count * 4)
      let cpu :=
        if writeback ≠ 0 then { cpu with registers := upd cpu.registers rn wbVal }
        else cpu
      if load ≠ 0 ∧ reg_list &&& 0x8000 ≠ 0 then
        { cpu with registers := upd cpu.registers 15 (cpu.registers 15 &&& ADDR_MASK) }
      else cpu
    else if instr &&& 0x0FC000F0 = 0x00000090 then
      let rd := (instr >>> 16) &&& 0xF
      let rn := (instr >>> 12) &&& 0xF
      let rs := (instr >>> 8) &&& 0xF
      let rm := instr &&& 0xF
      let accumulate := (instr >>> 21) &&& 1
      let set_flags := (instr >>> 20) &&& 1
      let result0 := (cpu.registers rm * cpu.registers rs) % 0x100000000
      let result := if accumulate ≠ 0 then add32 result0 (cpu.registers rn) else result0
      let cpu := { cpu with registers := upd cpu.registers rd result }
      if set_flags ≠ 0 then { cpu with cpsr := update_flags cpu.cpsr result 0 0 } else cpu
    else if instr &&& 0x0F000000 = 0x0F000000 then
      let cpu := { cpu with spsr := cpu.cpsr }
      let cpu := { cpu with cpsr := (cpu.cpsr &&& not32 PSR_MODE_MASK) ||| MODE_SVC ||| PSR_I }
      let cpu := { cpu with registers := upd cpu.registers 14 (cpu.registers 15) }
      { cpu with registers := upd cpu.registers 15 (0x00000008 &&& ADDR_MASK) }
    else cpu

/-- Outcome of the interrupt-and-fetch preamble of cpu_step in
    src/unnamed/part_008: an IRQ is taken, or the process is aborted by
    exit(1) on a sentinel fetch, or a valid instruction word is fetched. -/
inductive StepEntry where
  | irqEntry (cpu : Cpu) : StepEntry
  | processExited (code : Nat) : StepEntry
  | fetched (instr : Nat) : StepEntry

/-- The interrupt check and the fetch of cpu_step from
    src/unnamed/part_008 (lines 148-167): when irq_pending is set and
    IRQs are enabled, enter the IRQ exception and clear irq_pending;
    otherwise fetch at the masked PC, and when the fetched word is the
    0xFFFFFFFF sentinel, the source prints and calls exit(1), aborting
    the emulator process, which the embedding records as processExited 1. -/
def cpu_step_entry (cpu : Cpu) : StepEntry :=
  if cpu.mem.iou.irq_pending = true ∧ cpu.cpsr &&& PSR_I = 0 then
    let cpu := { cpu with spsr_irq := cpu.cpsr }
    let cpu := { cpu with registers := upd cpu.registers 14 (cpu.registers 15) }
    let cpu := { cpu with cpsr := (cpu.cpsr &&& not32 PSR_MODE_MASK) ||| MODE_IRQ ||| PSR_I }
    let cpu := { cpu with registers := upd cpu.registers 15 (0x00000018 &&& ADDR_MASK) }
    StepEntry.irqEntry
      { cpu with mem := { cpu.mem with iou := { cpu.mem.iou with irq_pending := false } } }
  else
    let fetch_pc := cpu.registers 15 &&& ADDR_MASK
    let instr := memory_read_word cpu.mem fetch_pc
    if instr = 0xFFFFFFFF then StepEntry.processExited 1
    else StepEntry.fetched instr

/-! Sample machine states used to instantiate the claim theorems. -/

/-- All-zero VIDC bank. -/
def vidcZero : Vidc :=
  { control := 0, palette := fun _ => 0, border_color := 0,
    cursor_palette := fun _ => 0,
    h_cycle := 0, h_sync_width := 0, h_border_start := 0, h_display_start := 0,
    h_display_end := 0, h_border_end := 0, h_cursor_start := 0,
    v_cycle := 0, v_sync_width := 0, v_border_start := 0, v_display_start := 0,
    v_display_end := 0, v_border_end := 0, v_cursor_end := 0,
    sound_freq := 0, sound_control := 0, video_base := 0, ext_latch_c := 0 }

/-- All-zero IOC bank. -/
def iocZero : Ioc :=
  { control := 0, timer0_low := 0, timer0_high := 0, timer1_low := 0, timer1_high := 0,
    timer0_latch := 0, timer1_latch := 0,
    irq_status_a := 0, irq_request_a := 0, irq_mask_a := 0,
    irq_status_b := 0, irq_request_b := 0, irq_mask_b := 0,
    fiq_status := 0, fiq_request := 0, fiq_mask := 0,
    podule_irq_mask := 0, podule_irq_request := 0 }

/-- Quiescent io_t state. -/
def iouZero : IoUnit :=
  { memc_control := 0, vidc := vidcZero, ioc := iocZero,
    frame_width := 0, frame_height := 0,
    irq_pending := false, fiq_pending := false, cycles := 0 }

/-- Memory as memory_create leaves it with a 2 MiB ROM image loaded at
    the default base: zero RAM, boot mode asserted. -/
def memZero : Memory :=
  { ram := fun _ => 0, rom := fun _ => 0, rom_size := 0x00200000,
    rom_base := 0x03800000, floppy_offset := 0, iou := iouZero, is_boot_mode := 1 }

/-- CPU over memZero in the post-reset PSR state I|F|SVC. -/
def cpuZero : Cpu :=
  { mem := memZero, registers := fun _ => 0, cpsr := 0xD3,
    spsr := 0, spsr_irq := 0, spsr_fiq := 0 }

/-- Memory whose ROM bytes are all 0x11 and RAM bytes all 0x22, so ROM
    words read 0x11111111 and RAM words 0x22222222. -/
def c1Mem : Memory :=
  { memZero with ram := fun _ => 0x22, rom := fun _ => 0x11 }

/-- CPU whose PC sits at 0x01000000, an address outside every bus
    window, so the fetch returns the 0xFFFFFFFF sentinel. -/
def c3Cpu : Cpu :=
  { cpuZero with registers := fun i => if i = 15 then 0x01000000 else 0 }

/-- Memory at boot used for the write-masking counterexample. -/
def c5Mem : Memory := memZero

/-- IOC state with the reset-time mask (Timer0 and Timer1 enabled) and
    no pending interrupt flag. -/
def c6Iou : IoUnit :=
  { iouZero with ioc := { iocZero with irq_mask_a := 0x60 } }

/-- CPU used to instantiate the reset theorems. -/
def c7Cpu : Cpu :=
  { cpuZero with
    registers := fun i => 100 + i
    cpsr := 0x12345678
    spsr := 1
    spsr_irq := 2
    spsr_fiq := 3 }

/-- CPU about to execute MULS R0, R1, R2 (0xE0100291, stored
    little-endian at 0x00200000) with R1 = 3, R2 = 4 and the carry
    flag set. -/
def c8Cpu : Cpu :=
  { cpuZero with
    mem := { memZero with ram := fun x =>
      if x = 0x00200000 then 0x91
      else if x = 0x00200001 then 0x02
      else if x = 0x00200002 then 0x10
      else if x = 0x00200003 then 0xE0
      else 0 },
    registers := fun i => if i = 1 then 3 else if i = 2 then 4 else
      if i = 15 then 0x00200000 else 0,
    cpsr := 0x200000D3 }

/-- Quiescent IOC state for the request-register counterexample. -/
def c9Iou : IoUnit := iouZero

/-- CPU whose PC points at a RAM word holding 0xFFFFFFFF, so the fetch
    returns the sentinel while the word's condition field is 0xF. -/
def c10Cpu : Cpu :=
  { cpuZero with
    mem := { memZero with ram := fun _ => 0xFF },
    registers := fun i => if i = 15 then 0x00200000 else 0 }

/-- C1. The spec claims a word write to the MEMC control register
    address clears boot_mode and that low-memory reads are then served
    from RAM. In src/src/memory.cpp no code path ever clears
    is_boot_mode: the MEMC-control write 0x03600000 (the very write
    src/unnamed/part_008 issues to exit boot mode) falls through
    io_write_word's unimplemented branch and leaves the flag at 1, and
    memory_read_word serves 0x00000000-0x001FFFFF from ROM
    unconditionally, so even with the flag forced to 0 a low read still
    returns the ROM word 0x11111111 rather than the RAM word 0x22222222. -/
theorem c1_boot_mode_never_cleared :
    (memory_write_word c1Mem 0x03600000 0).is_boot_mode = 1 ∧
    memory_read_word (memory_write_word c1Mem 0x03600000 0) 0x00000000 = 0x11111111 ∧
    memory_read_word { c1Mem with is_boot_mode := 0 } 0x00000000 = 0x11111111 ∧
    leWord c1Mem.ram 0 = 0x22222222 := by
  refine ⟨?_, ?_, ?_, ?_⟩ <;> decide

/-- C3. The spec claims an invalid fetch halts the frame with a
    non-fatal running=false flag and does not abort the emulator. The
    cpu_step of src/unnamed/part_008 calls exit(1) when the fetched word
    is the sentinel, aborting the process (recorded here as the
    processExited 1 outcome), and the cpu_step of src/src/cpu.cpp simply
    returns with the state unchanged; neither sets any running flag. -/
theorem c3_invalid_fetch_aborts_process :
    cpu_step_entry c3Cpu = StepEntry.processExited 1 ∧ cpu_step c3Cpu = c3Cpu := by
  exact ⟨rfl, rfl⟩

/-- C8. The spec claims MUL writes Rd = (Rm * Rs) mod 2^32 with C and V
    preserved under S=1. In src/src/cpu.cpp the data-processing dispatch
    (instr & 0x0C000000) == 0 is tested before the multiply pattern and
    captures every multiply encoding, so MULS R0, R1, R2 executes as
    AND R0, R0, R1 LSL R2: with R1 = 3, R2 = 4 and C set beforehand,
    R0 becomes 0 instead of 12 and the S-path clears the carry flag
    (update_flags is called with zero carry/overflow, which would also
    happen in the unreachable multiply branch). -/
theorem c8_multiply_shadowed_by_data_processing :
    c8Cpu.cpsr &&& PSR_C = PSR_C ∧
    (c8Cpu.registers 1 * c8Cpu.registers 2) % 0x100000000 = 12 ∧
    (cpu_step c8Cpu).registers 0 = 0 ∧
    (cpu_step c8Cpu).cpsr &&& PSR_C = 0 := by
  refine ⟨?_, ?_, ?_, ?_⟩ <;> decide

/-- C10 counterexample. The claim quantifies over every state whose
    fetched condition field evaluates false, but when the fetched word
    is the 0xFFFFFFFF sentinel its condition field 0xF also evaluates
    false and cpu_step returns without advancing R15: here R15 stays at
    0x00200000 instead of increasing by 4. -/
theorem c10_sentinel_condition_counterexample :
    condition_met c10Cpu.cpsr
      ((memory_read_word c10Cpu.mem (c10Cpu.registers 15 &&& ADDR_MASK) >>> 28) &&& 0xF)
      = false ∧
    (cpu_step c10Cpu).registers 15 = c10Cpu.registers 15 ∧
    c10Cpu.registers 15 ≠ add32 (c10Cpu.registers 15) 4 := by
  refine ⟨?_, ?_, ?_⟩ <;> decide

/-- The 26-bit bus mask is reduction modulo 2^26. -/
theorem mask26_eq_mod (a : Nat) : a &&& ADDR_MASK = a % 0x04000000 := by
  have h : ADDR_MASK = 2 ^ 26 - 1 := by norm_num [ADDR_MASK]
  rw [h, Nat.and_pow_two_sub_one_eq_mod]

/-- Masking to 26 bits is idempotent. -/
theorem mask26_idem (a : Nat) : (a &&& ADDR_MASK) &&& ADDR_MASK = a &&& ADDR_MASK := by
  rw [mask26_eq_mod, mask26_eq_mod]
  omega

/-- C5 counterexample. memory_write_word does not mask its address: the
    unmasked address 0x04200000 is treated as invalid and ignored, while
    its 26-bit masked value 0x00200000 lands in RAM and stores the word,
    so the two calls produce different states. -/
theorem c5_write_word_unmasked_counterexample :
    (memory_write_word c5Mem 0x04200000 1).ram 0x00200000 ≠
    (memory_write_word c5Mem (0x04200000 &&& ADDR_MASK) 1).ram 0x00200000 := by
  decide

/-- C5 amended. read_word, read_byte and write_byte mask their address
    to 26 bits before decoding, so each agrees with itself at the masked
    address; write_word performs no mask (the counterexample shows the
    two write_word calls can differ). -/
theorem c5_masking_amended (st : Memory) (a b : Nat) :
    memory_read_word st a = memory_read_word st (a &&& ADDR_MASK) ∧
    memory_read_byte st a = memory_read_byte st (a &&& ADDR_MASK) ∧
    memory_write_byte st a b = memory_write_byte st (a &&& ADDR_MASK) b := by
  refine ⟨?_, ?_, ?_⟩
  · simp only [memory_read_word, mask26_idem]
  · simp only [memory_read_byte, mask26_idem]
  · simp only [memory_write_byte, mask26_idem]

/-- C6 counterexample. An IOC register write does not recompute the
    derived pending flags: writing 0x20 to IRQ Request A while Timer0 is
    unmasked leaves irq_pending false although
    (irq_request_a & irq_mask_a) is now nonzero. -/
theorem c6_ioc_write_pending_counterexample :
    (io_write_word c6Iou 0x03200020 0x20).irq_pending = false ∧
    (io_write_word c6Iou 0x03200020 0x20).ioc.irq_request_a &&&
      (io_write_word c6Iou 0x03200020 0x20).ioc.irq_mask_a ≠ 0 := by
  refine ⟨?_, ?_⟩ <;> decide

/-- C6 amended. The encoded interrupt invariant holds after every
    io_update_timers call, whose final assignments recompute both flags
    from the updated request and mask registers; io_write_word never
    touches irq_pending or fiq_pending, so after an IOC register write
    the flags keep their previous values (and the invariant can fail, as
    the counterexample shows). -/
theorem c6_pending_invariant_amended (u : IoUnit) (a v : Nat) :
    ((io_update_timers u).irq_pending = true ↔
      ((io_update_timers u).ioc.irq_request_a &&& (io_update_timers u).ioc.irq_mask_a ≠ 0 ∨
       (io_update_timers u).ioc.irq_request_b &&& (io_update_timers u).ioc.irq_mask_b ≠ 0)) ∧
    ((io_update_timers u).fiq_pending = true ↔
      (io_update_timers u).ioc.fiq_request &&& (io_update_timers u).ioc.fiq_mask ≠ 0) ∧
    (io_write_word u a v).irq_pending = u.irq_pending ∧
    (io_write_word u a v).fiq_pending = u.fiq_pending := by
  refine ⟨?_, ?_, ?_, ?_⟩
  · simp only [io_update_timers, irq_pending_of, Bool.or_eq_true, decide_eq_true_eq]
  · simp only [io_update_timers, fiq_pending_of, decide_eq_true_eq]
  · simp only [io_write_word]
    split_ifs <;> rfl
  · simp only [io_write_word]
    split_ifs <;> rfl

/-- C7 counterexample. After cpu_reset, R14 holds 0x00000004 (the source
    sets it to the instruction after the reset vector), not 0 as the
    claim states for all of R0..R14. -/
theorem c7_reset_r14_counterexample : (cpu_reset c7Cpu).registers 14 ≠ 0 := by
  decide

/-- C7 amended. After cpu_reset: PC = 0, CPSR = I|F|SVC, R0..R13 are 0
    and R14 = 4; cpu_reset is idempotent; and cpu_reset leaves the
    memory subsystem, including the boot-mode flag, untouched. -/
theorem c7_reset_amended (cpu : Cpu) (i : Nat) (hi : i ≤ 13) :
    (cpu_reset cpu).registers 15 = 0 ∧
    (cpu_reset cpu).cpsr = PSR_I ||| PSR_F ||| MODE_SVC ∧
    (cpu_reset cpu).registers i = 0 ∧
    (cpu_reset cpu).registers 14 = 0x00000004 ∧
    cpu_reset (cpu_reset cpu) = cpu_reset cpu ∧
    (cpu_reset cpu).mem = cpu.mem := by
  refine ⟨rfl, rfl, ?_, rfl, rfl, rfl⟩
  simp only [cpu_reset]
  rw [if_neg (by omega)]

/-- C7 amended claim instantiated at a concrete post-boot CPU state. -/
theorem c7_reset_amended_witness :
    (cpu_reset c7Cpu).registers 15 = 0 ∧
    (cpu_reset c7Cpu).cpsr = PSR_I ||| PSR_F ||| MODE_SVC ∧
    (cpu_reset c7Cpu).registers 3 = 0 ∧
    (cpu_reset c7Cpu).registers 14 = 0x00000004 ∧
    cpu_reset (cpu_reset c7Cpu) = cpu_reset c7Cpu ∧
    (cpu_reset c7Cpu).mem = c7Cpu.mem :=
  c7_reset_amended c7Cpu 3 (by decide)

/-- C9 counterexample. A write to IRQ Request A is a plain assignment in
    io_write_word: writing 0x20 over a zero request register yields
    0x20, not old & ~0x20 = 0, so a software write can set request bits. -/
theorem c9_request_write_sets_bits_counterexample :
    (io_write_word c9Iou 0x03200020 0x20).ioc.irq_request_a = 0x20 ∧
    c9Iou.ioc.irq_request_a &&& (0xFFFFFFFF ^^^ 0x20) = 0 ∧
    (0x20 : Nat) ≠ 0 := by
  refine ⟨?_, ?_, ?_⟩ <;> decide

/-- C9 amended. Writes to IRQ Request A (offset 8, address 0x03200020),
    IRQ Request B (offset 11, 0x0320002C) and FIQ Request (offset 14,
    0x03200038) store the written value directly; the mask registers
    (offsets 9, 12, 15) are wholly writable: writing v and reading the
    register back yields v. -/
theorem c9_ioc_write_amended (u : IoUnit) (v : Nat) :
    (io_write_word u 0x03200020 v).ioc.irq_request_a = v ∧
    (io_write_word u 0x0320002C v).ioc.irq_request_b = v ∧
    (io_write_word u 0x03200038 v).ioc.fiq_request = v ∧
    io_read_word (io_write_word u 0x03200024 v) 0x03200024 = v ∧
    io_read_word (io_write_word u 0x03200030 v) 0x03200030 = v ∧
    io_read_word (io_write_word u 0x0320003C v) 0x0320003C = v := by
  refine ⟨rfl, rfl, rfl, rfl, rfl, rfl⟩

/-- memory_write_word never touches the ROM buffer, the loaded ROM size
    or the ROM base, whatever the address: every branch either returns
    the state, stores into RAM, or delegates to the I/O unit. -/
theorem write_word_rom_fields (st : Memory) (a v : Nat) :
    (memory_write_word st a v).rom = st.rom ∧
    (memory_write_word st a v).rom_size = st.rom_size ∧
    (memory_write_word st a v).rom_base = st.rom_base := by
  unfold memory_write_word
  split_ifs <;> exact ⟨rfl, rfl, rfl⟩

/-- For an address in either ROM alias window, memory_read_word is the
    wrapped ROM word (or the sentinel when the wrapped offset has no
    room for a full word), independent of everything but the ROM buffer
    and its size. -/
theorem read_word_alias (st : Memory) (a : Nat)
    (h : (0x02000000 ≤ a ∧ a < 0x02200000) ∨ a < 0x00200000) :
    memory_read_word st a =
      (if (a &&& 0x001FFFFF) % st.rom_size ≤ st.rom_size - 4
       then leWord st.rom ((a &&& 0x001FFFFF) % st.rom_size)
       else 0xFFFFFFFF) := by
  have haeq : a % 0x04000000 = a := Nat.mod_eq_of_lt (by omega)
  simp only [memory_read_word, mask26_eq_mod, haeq]
  rw [if_pos h]

/-- Concrete memory for the invalid-access witness. -/
def c2Mem : Memory := memZero

/-- Memory whose ROM bytes are all 0x11. -/
def c4Mem : Memory := { memZero with rom := fun _ => 0x11 }

/-- CPU about to fetch the word 0 (condition field EQ, false since Z is
    clear after reset) from RAM at 0x00200000. -/
def c10wCpu : Cpu :=
  { cpuZero with registers := fun i => if i = 15 then 0x00200000 else 0 }

/-- C2. For every address whose 26-bit masked value lies outside the RAM
    window, both ROM alias windows, the primary ROM window and the MMIO
    window, memory_read_word returns the 0xFFFFFFFF sentinel and
    memory_write_word returns the state unchanged (no RAM, ROM or device
    register is modified). -/
theorem c2_invalid_access (st : Memory) (a v : Nat)
    (hbase : st.rom_base = 0x03800000) (hsize : st.rom_size ≤ 0x00200000)
    (hram : ¬ (RAM_BASE ≤ a &&& ADDR_MASK ∧ a &&& ADDR_MASK < RAM_BASE + RAM_SIZE))
    (halias : ¬ ((0x02000000 ≤ a &&& ADDR_MASK ∧ a &&& ADDR_MASK < 0x02200000) ∨
                 a &&& ADDR_MASK < 0x00200000))
    (hrom : ¬ (st.rom_base ≤ a &&& ADDR_MASK ∧
               a &&& ADDR_MASK < st.rom_base + st.rom_size))
    (hmmio : ¬ (IO_BASE ≤ a &&& ADDR_MASK ∧ a &&& ADDR_MASK < IO_BASE + IO_SIZE)) :
    memory_read_word st a = 0xFFFFFFFF ∧ memory_write_word st a v = st := by
  rw [mask26_eq_mod] at hram halias hrom hmmio
  rw [hbase] at hrom
  simp only [RAM_BASE, RAM_SIZE, IO_BASE, IO_SIZE] at hram hmmio
  have hle : a % 0x04000000 ≤ a := Nat.mod_le _ _
  constructor
  · simp only [memory_read_word, mask26_eq_mod, RAM_BASE, RAM_SIZE, IO_BASE, IO_SIZE, hbase]
    split_ifs <;> first | rfl | (exfalso; omega)
  · simp only [memory_write_word, RAM_BASE, RAM_SIZE, IO_BASE, IO_SIZE, hbase]
    split_ifs <;> first | rfl | (exfalso; omega)

/-- C2 instantiated at the unmapped address 0x01234567 over the
    post-load machine state. -/
theorem c2_invalid_access_witness :
    memory_read_word c2Mem 0x01234567 = 0xFFFFFFFF ∧
    memory_write_word c2Mem 0x01234567 5 = c2Mem :=
  c2_invalid_access c2Mem 0x01234567 5 rfl (by decide) (by decide) (by decide)
    (by decide) (by decide)

/-- C4. For every address that decodes to a ROM region — the primary ROM
    window, or an alias window position whose wrapped offset holds a
    full word — and all values: a word write leaves the ROM buffer
    unchanged, a byte write leaves the whole state unchanged, a word
    read after the word write equals the read before it, and the read
    returns the loaded ROM word at the decoded offset. -/
theorem c4_rom_immutable (st : Memory) (a v b : Nat)
    (hbase : st.rom_base = 0x03800000) (hsize : st.rom_size ≤ 0x00200000)
    (hreg : (st.rom_base ≤ a ∧ a < st.rom_base + st.rom_size - 3) ∨
            (((0x02000000 ≤ a ∧ a < 0x02200000) ∨ a < 0x00200000) ∧
             (a &&& 0x001FFFFF) % st.rom_size ≤ st.rom_size - 4)) :
    (memory_write_word st a v).rom = st.rom ∧
    memory_write_byte st a b = st ∧
    memory_read_word (memory_write_word st a v) a = memory_read_word st a ∧
    memory_read_word st a = leWord st.rom
      (if a < 0x02200000 then (a &&& 0x001FFFFF) % st.rom_size else a - st.rom_base) := by
  have hr := write_word_rom_fields st a v
  rcases hreg with h1 | h2
  · have haeq : a % 0x04000000 = a := Nat.mod_eq_of_lt (by omega)
    have hww : memory_write_word st a v = st := by
      unfold memory_write_word
      rw [if_pos (Or.inl ⟨h1.1, by omega⟩)]
    have hwb : memory_write_byte st a b = st := by
      simp only [memory_write_byte, mask26_eq_mod, haeq, RAM_BASE, RAM_SIZE, IO_BASE, IO_SIZE]
      split_ifs <;> first | rfl | (exfalso; omega)
    refine ⟨hr.1, hwb, by rw [hww], ?_⟩
    simp only [memory_read_word, mask26_eq_mod, haeq, RAM_BASE, RAM_SIZE, IO_BASE, IO_SIZE]
    split_ifs <;> first | rfl | (exfalso; omega)
  · have haeq : a % 0x04000000 = a := Nat.mod_eq_of_lt (by omega)
    have hwb : memory_write_byte st a b = st := by
      simp only [memory_write_byte, mask26_eq_mod, haeq]
      rw [if_pos h2.1]
    have hra := read_word_alias st a h2.1
    have hra2 := read_word_alias (memory_write_word st a v) a h2.1
    refine ⟨hr.1, hwb, ?_, ?_⟩
    · rw [hra2, hra, hr.1, hr.2.1]
    · rw [hra, if_pos h2.2, if_pos (show a < 0x02200000 by omega)]

/-- C4 instantiated at the first word of the primary ROM window. -/
theorem c4_rom_immutable_witness :
    (memory_write_word c4Mem 0x03800000 7).rom = c4Mem.rom ∧
    memory_write_byte c4Mem 0x03800000 9 = c4Mem ∧
    memory_read_word (memory_write_word c4Mem 0x03800000 7) 0x03800000 =
      memory_read_word c4Mem 0x03800000 ∧
    memory_read_word c4Mem 0x03800000 = leWord c4Mem.rom
      (if (0x03800000 : Nat) < 0x02200000
       then (0x03800000 &&& 0x001FFFFF) % c4Mem.rom_size
       else 0x03800000 - c4Mem.rom_base) :=
  c4_rom_immutable c4Mem 0x03800000 7 9 rfl (by decide) (by decide)

/-- C10 amended. For every machine state whose fetched word is not the
    0xFFFFFFFF sentinel and whose condition field evaluates false
    against the current CPSR flags, cpu_step changes nothing but R15,
    which advances by exactly 4 (mod 2^32): R0..R14, CPSR, the saved
    PSRs, RAM, ROM and all device registers are carried over unchanged. -/
theorem c10_condition_failed_amended (cpu : Cpu)
    (hfetch : memory_read_word cpu.mem (cpu.registers 15 &&& ADDR_MASK) ≠ 0xFFFFFFFF)
    (hcond : condition_met cpu.cpsr
      ((memory_read_word cpu.mem (cpu.registers 15 &&& ADDR_MASK) >>> 28) &&& 0xF) = false) :
    cpu_step cpu = { cpu with registers := upd cpu.registers 15 (add32 (cpu.registers 15) 4) } := by
  simp only [cpu_step]
  rw [if_neg hfetch, if_pos hcond]

/-- C10 amended claim instantiated at a CPU fetching the word 0 with the
    Z flag clear, so the EQ condition fails. -/
theorem c10_condition_failed_witness :
    cpu_step c10wCpu =
      { c10wCpu with registers := upd c10wCpu.registers 15 (add32 (c10wCpu.registers 15) 4) } :=
  c10_condition_failed_amended c10wCpu (by decide) (by decide)

end AcornArc
